import Mathlib

/-!
Verification development for the Voriconazole plasma-concentration estimator
(`src/PPCs_vcz.py`). The numeric pipeline is embedded shallowly over `ℚ`:
feature assembly, the pharmacokinetic back-calculation, the calibration floor
and the steady-state advisory are translated from the source; the two external
regression models are universally quantified function parameters.
-/

namespace PPCsVcz

/-- The sex selectbox offers exactly the options `"Male"` and `"Female"`
(`PPCs_vcz.py` line 86). -/
inductive SexInput where
  | Male
  | Female
deriving DecidableEq

/-- The label string carried by each sex option. -/
def sex_label : SexInput → String
  | SexInput.Male => "Male"
  | SexInput.Female => "Female"

/-- Encoding from line 90: `sex = 1 if sex_input == "Male" else 2`. -/
def sex_encode (sex_input : SexInput) : ℚ :=
  if sex_label sex_input = "Male" then 1 else 2

/-- The CYP2C19 metabolizer selectbox offers exactly three options
(`PPCs_vcz.py` lines 93-101). -/
inductive GenoLabel where
  | NM
  | IM
  | PM
deriving DecidableEq

/-- The label string carried by each metabolizer option. -/
def geno_label_str : GenoLabel → String
  | GenoLabel.NM => "NM (Normal metabolizer)"
  | GenoLabel.IM => "IM (Intermediate metabolizer)"
  | GenoLabel.PM => "PM (Poor metabolizer)"

/-- The `geno_map` dict from lines 103-107, as an association list in source
order. -/
def geno_map : List (String × ℚ) :=
  [("NM (Normal metabolizer)", 1),
   ("IM (Intermediate metabolizer)", 2),
   ("PM (Poor metabolizer)", 3)]

/-- Line 108: `GenotypingValue = geno_map[geno_label]`. The selectbox
guarantees the key is present, so the `getD` default is unreachable. -/
def GenotypingValue (geno_label : GenoLabel) : ℚ :=
  ((geno_map.find? (fun kv => kv.1 == geno_label_str geno_label)).map Prod.snd).getD 0

/-- All raw inputs collected by the sidebar (lines 43-108), in source order. -/
structure PatientCovariates where
  daydose : ℚ
  time_val : ℚ
  age : ℚ
  weight : ℚ
  alb : ℚ
  crp : ℚ
  tbil : ℚ
  sex_input : SexInput
  geno_label : GenoLabel

/-- Lines 118-120:
`def calculate_theoretical_conc(pred_cl, dose_mg_per_day):`
`    pred_cl_safe = max(float(pred_cl), 0.1)`
`    return float(dose_mg_per_day) / (24.0 * pred_cl_safe)`. -/
def calculate_theoretical_conc (pred_cl dose_mg_per_day : ℚ) : ℚ :=
  dose_mg_per_day / (24 * max pred_cl 0.1)

/-- The CL/F feature-name list from line 35 (training order). -/
def features_cl : List String :=
  ["CRP", "ALB", "GenotypingValue", "Age", "Sex", "TBIL", "Weight"]

/-- The dict literal built at lines 123-131, in the order its fields appear in
the source, as an association list of column name to value. -/
def covariate_dict (p : PatientCovariates) : List (String × ℚ) :=
  [("GenotypingValue", GenotypingValue p.geno_label),
   ("Weight", p.weight),
   ("Sex", sex_encode p.sex_input),
   ("CRP", p.crp),
   ("ALB", p.alb),
   ("Age", p.age),
   ("TBIL", p.tbil)]

/-- `pd.DataFrame([d], columns=features_cl)`: the row is re-indexed by the
column list, each column holding the dict value for that name (`none`, i.e.
NaN, for an absent name). -/
def assemble_row (d : List (String × ℚ)) : List (String × Option ℚ) :=
  features_cl.map (fun c => (c, (d.find? (fun kv => kv.1 == c)).map Prod.snd))

/-- `input_row` from lines 123-131: the covariate dict re-indexed by
`features_cl`. -/
def input_row (p : PatientCovariates) : List (String × Option ℚ) :=
  assemble_row (covariate_dict p)

/-- The steady-state advisory rendered at lines 179-188. -/
inductive SteadyStateAdvisory where
  | BeforeSteadyState
  | NearSteadyState
deriving DecidableEq

/-- Lines 179-188: `if time_val < 7:` warn (before steady state) `else`
success (near steady state). -/
def advisory (time_val : ℚ) : SteadyStateAdvisory :=
  if time_val < 7 then SteadyStateAdvisory.BeforeSteadyState
  else SteadyStateAdvisory.NearSteadyState

/-- The values presented after a successful estimation (lines 136-188). -/
structure EstimationResult where
  pred_cl : ℚ
  theory_conc : ℚ
  pred_conc : ℚ
  steady : SteadyStateAdvisory
deriving DecidableEq

/-- The estimation block (lines 136-148) with the two external models as
parameters: `pred_cl = model_cl.predict(input_row)[0]`, then the PK
back-calculation, then `pred_conc = max(float(calibrator.predict(...)), 0.1)`,
and the advisory derived from `time_val`. -/
def estimate (model_cl : List (String × Option ℚ) → ℚ) (calibrator : ℚ → ℚ)
    (p : PatientCovariates) : EstimationResult :=
  ⟨model_cl (input_row p),
   calculate_theoretical_conc (model_cl (input_row p)) p.daydose,
   max (calibrator (calculate_theoretical_conc (model_cl (input_row p)) p.daydose)) 0.1,
   advisory p.time_val⟩

/-- The same estimation block with fallible model calls: a Python exception in
either external `predict` call is modelled as `Except.error`, and propagation
(no `try` anywhere in the block) as monadic bind. -/
def estimateE (model_cl : List (String × Option ℚ) → Except String ℚ)
    (calibrator : ℚ → Except String ℚ) (p : PatientCovariates) :
    Except String EstimationResult :=
  (model_cl (input_row p)).bind (fun pred_cl =>
    (calibrator (calculate_theoretical_conc pred_cl p.daydose)).bind (fun cc =>
      Except.ok ⟨pred_cl, calculate_theoretical_conc pred_cl p.daydose,
        max cc 0.1, advisory p.time_val⟩))

/-- The worked scenario from the spec: dose 400 mg/day, day 7, age 50,
weight 60, ALB 32, CRP 30, TBIL 12, male, normal metabolizer. -/
def exampleP : PatientCovariates :=
  ⟨400, 7, 50, 60, 32, 30, 12, SexInput.Male, GenoLabel.NM⟩

/-- Claim C1: the PK back-calculation returns `d / (24 × max(cl, 0.1))` for
every clearance `cl` and dose `d`, and whenever `cl ≤ 0.1` this equals
`d / 2.4`. -/
theorem back_calc_formula (cl d : ℚ) :
    calculate_theoretical_conc cl d = d / (24 * max cl 0.1) ∧
    (cl ≤ 0.1 → calculate_theoretical_conc cl d = d / 2.4) := by
  refine ⟨rfl, fun h => ?_⟩
  unfold calculate_theoretical_conc
  rw [max_eq_right h]
  norm_num

/-- Witness for C1 at the spec scenario: clearance 0 and dose 400 give
`400 / 2.4`. -/
theorem back_calc_formula_witness :
    (0 : ℚ) ≤ 0.1 ∧ calculate_theoretical_conc 0 400 = 400 / 2.4 :=
  ⟨by norm_num, (back_calc_formula 0 400).2 (by norm_num)⟩

/-- Claim C10: the back-calculation is total with a strictly positive result:
the denominator is at least 2.4, and for every dose `d > 0` the result lies in
`(0, d / 2.4]`. -/
theorem back_calc_safe (cl d : ℚ) (hd : 0 < d) :
    (2.4 : ℚ) ≤ 24 * max cl 0.1 ∧
    0 < calculate_theoretical_conc cl d ∧
    calculate_theoretical_conc cl d ≤ d / 2.4 := by
  have h1 : (0.1 : ℚ) ≤ max cl 0.1 := le_max_right _ _
  have h2 : (2.4 : ℚ) ≤ 24 * max cl 0.1 := by nlinarith
  have h3 : (0 : ℚ) < 24 * max cl 0.1 := by nlinarith
  refine ⟨h2, div_pos hd h3, ?_⟩
  unfold calculate_theoretical_conc
  exact div_le_div_of_nonneg_left hd.le (by norm_num) h2

/-- Witness for C10 at clearance 0 and dose 400. -/
theorem back_calc_safe_witness :
    (0 : ℚ) < 400 ∧
    ((2.4 : ℚ) ≤ 24 * max 0 0.1 ∧
     0 < calculate_theoretical_conc 0 400 ∧
     calculate_theoretical_conc 0 400 ≤ 400 / 2.4) :=
  ⟨by norm_num, back_calc_safe 0 400 (by norm_num)⟩

/-- Claim C4: the categorical encodings are Male → 1, Female → 2 for sex and
NM → 1, IM → 2, PM → 3 for the metabolizer status. -/
theorem categorical_encodings :
    sex_encode SexInput.Male = 1 ∧ sex_encode SexInput.Female = 2 ∧
    GenotypingValue GenoLabel.NM = 1 ∧ GenotypingValue GenoLabel.IM = 2 ∧
    GenotypingValue GenoLabel.PM = 3 := by
  refine ⟨?_, ?_, ?_, ?_, ?_⟩ <;> decide

/-- Claim C5: over the input domain `[0, 60]`, the advisory is
BeforeSteadyState exactly when `time_val < 7`; 6.999 gives BeforeSteadyState
and 7 gives NearSteadyState. -/
theorem advisory_threshold (t : ℚ) (h0 : 0 ≤ t) (h60 : t ≤ 60) :
    (advisory t = SteadyStateAdvisory.BeforeSteadyState ↔ t < 7) ∧
    advisory 6.999 = SteadyStateAdvisory.BeforeSteadyState ∧
    advisory 7 = SteadyStateAdvisory.NearSteadyState := by
  refine ⟨?_, by norm_num [advisory], by norm_num [advisory]⟩
  unfold advisory
  rcases lt_or_le t 7 with h | h
  · simp [h]
  · simp [not_lt.mpr h, h]

/-- Witness for C5 at `t = 3`. -/
theorem advisory_threshold_witness :
    (0 : ℚ) ≤ 3 ∧ (3 : ℚ) ≤ 60 ∧
    ((advisory 3 = SteadyStateAdvisory.BeforeSteadyState ↔ (3 : ℚ) < 7) ∧
     advisory 6.999 = SteadyStateAdvisory.BeforeSteadyState ∧
     advisory 7 = SteadyStateAdvisory.NearSteadyState) :=
  ⟨by norm_num, by norm_num, advisory_threshold 3 (by norm_num) (by norm_num)⟩

/-- Claim C3: whatever scalar the external calibrator returns, the reported
calibrated concentration is at least 0.1 (floor applied after the call). -/
theorem calibrated_floor (model_cl : List (String × Option ℚ) → ℚ)
    (calibrator : ℚ → ℚ) (p : PatientCovariates) :
    (0.1 : ℚ) ≤ (estimate model_cl calibrator p).pred_conc :=
  le_max_right _ _

/-- Looking a key up in an association list with no duplicate keys is
invariant under permutation of the entries. -/
theorem find?_key_perm {β : Type} {l₁ l₂ : List (String × β)} (h : l₁.Perm l₂)
    (nd : (l₁.map Prod.fst).Nodup) (k : String) :
    l₁.find? (fun kv => kv.1 == k) = l₂.find? (fun kv => kv.1 == k) := by
  induction h with
  | nil => rfl
  | cons x hp ih =>
      simp only [List.map_cons, List.nodup_cons] at nd
      cases hx : (x.1 == k) <;>
        simp [List.find?_cons, hx, ih nd.2]
  | swap x y l =>
      simp only [List.map_cons, List.nodup_cons, List.mem_cons, not_or] at nd
      have hxy : ¬ y.1 = x.1 := nd.1.1
      cases hy : (y.1 == k) <;> cases hx : (x.1 == k)
      · simp [List.find?_cons, hy, hx]
      · simp [List.find?_cons, hy, hx]
      · simp [List.find?_cons, hy, hx]
      · exact absurd ((eq_of_beq hy).trans (eq_of_beq hx).symm) hxy
  | trans h₁ h₂ ih₁ ih₂ =>
      exact (ih₁ nd).trans (ih₂ ((h₁.map Prod.fst).nodup_iff.mp nd))

/-- The keys of the covariate dict are pairwise distinct. -/
theorem covariate_dict_keys_nodup (p : PatientCovariates) :
    ((covariate_dict p).map Prod.fst).Nodup := by
  simp only [covariate_dict, List.map_cons, List.map_nil]
  decide

/-- Re-indexing the canonical covariate dict yields the fixed row. -/
theorem assemble_canonical (p : PatientCovariates) :
    assemble_row (covariate_dict p) =
      [("CRP", some p.crp), ("ALB", some p.alb),
       ("GenotypingValue", some (GenotypingValue p.geno_label)),
       ("Age", some p.age), ("Sex", some (sex_encode p.sex_input)),
       ("TBIL", some p.tbil), ("Weight", some p.weight)] := rfl

/-- Claim C2: however the dict entries are ordered, the row handed to the
clearance model has exactly the seven named columns in the fixed order
CRP, ALB, GenotypingValue, Age, Sex, TBIL, Weight. -/
theorem feature_order_invariant (p : PatientCovariates)
    (l : List (String × ℚ)) (h : l.Perm (covariate_dict p)) :
    assemble_row l =
      [("CRP", some p.crp), ("ALB", some p.alb),
       ("GenotypingValue", some (GenotypingValue p.geno_label)),
       ("Age", some p.age), ("Sex", some (sex_encode p.sex_input)),
       ("TBIL", some p.tbil), ("Weight", some p.weight)] := by
  have nd : ((covariate_dict p).map Prod.fst).Nodup := covariate_dict_keys_nodup p
  have nd' : (l.map Prod.fst).Nodup := (h.map Prod.fst).nodup_iff.mpr nd
  have key : ∀ k : String,
      l.find? (fun kv => kv.1 == k) = (covariate_dict p).find? (fun kv => kv.1 == k) :=
    fun k => find?_key_perm h nd' k
  calc assemble_row l
      = assemble_row (covariate_dict p) := by
        unfold assemble_row
        exact List.map_congr_left (fun c _ => by rw [key c])
    _ = _ := assemble_canonical p

/-- Witness for C2: a dict assembled in a different order (weight first, dose
covariates shuffled) still yields the canonical row for the worked scenario. -/
theorem feature_order_invariant_witness :
    ([("Weight", (60 : ℚ)), ("GenotypingValue", GenotypingValue GenoLabel.NM),
      ("CRP", 30), ("Sex", sex_encode SexInput.Male), ("Age", 50),
      ("TBIL", 12), ("ALB", 32)].Perm (covariate_dict exampleP)) ∧
    assemble_row
      [("Weight", (60 : ℚ)), ("GenotypingValue", GenotypingValue GenoLabel.NM),
       ("CRP", 30), ("Sex", sex_encode SexInput.Male), ("Age", 50),
       ("TBIL", 12), ("ALB", 32)] =
      [("CRP", some 30), ("ALB", some 32),
       ("GenotypingValue", some (GenotypingValue GenoLabel.NM)),
       ("Age", some 50), ("Sex", some (sex_encode SexInput.Male)),
       ("TBIL", some 12), ("Weight", some 60)] := by
  have hperm : ([("Weight", (60 : ℚ)), ("GenotypingValue", GenotypingValue GenoLabel.NM),
      ("CRP", 30), ("Sex", sex_encode SexInput.Male), ("Age", 50),
      ("TBIL", 12), ("ALB", 32)].Perm (covariate_dict exampleP)) := by
    unfold covariate_dict exampleP
    decide
  exact ⟨hperm, feature_order_invariant exampleP _ hperm⟩

/-- The scenario record again with `time_val = 3` instead of 7. -/
def examplePEarly : PatientCovariates :=
  ⟨400, 3, 50, 60, 32, 30, 12, SexInput.Male, GenoLabel.NM⟩

/-- The scenario record again with `daydose = 200` instead of 400. -/
def examplePHalfDose : PatientCovariates :=
  ⟨200, 7, 50, 60, 32, 30, 12, SexInput.Male, GenoLabel.NM⟩

/-- Claim C6: two runs agreeing on all covariates and the dose but differing
only in `time_val` (days since initiation) produce identical clearance,
theoretical concentration and calibrated concentration, whatever the two
external models compute. -/
theorem time_noninterference (model_cl : List (String × Option ℚ) → ℚ)
    (calibrator : ℚ → ℚ) (p₁ p₂ : PatientCovariates)
    (hdose : p₁.daydose = p₂.daydose) (hage : p₁.age = p₂.age)
    (hw : p₁.weight = p₂.weight) (halb : p₁.alb = p₂.alb)
    (hcrp : p₁.crp = p₂.crp) (htbil : p₁.tbil = p₂.tbil)
    (hsex : p₁.sex_input = p₂.sex_input) (hgeno : p₁.geno_label = p₂.geno_label) :
    (estimate model_cl calibrator p₁).pred_cl
      = (estimate model_cl calibrator p₂).pred_cl ∧
    (estimate model_cl calibrator p₁).theory_conc
      = (estimate model_cl calibrator p₂).theory_conc ∧
    (estimate model_cl calibrator p₁).pred_conc
      = (estimate model_cl calibrator p₂).pred_conc := by
  have hrow : input_row p₁ = input_row p₂ := by
    unfold input_row assemble_row covariate_dict
    rw [hage, hw, halb, hcrp, htbil, hsex, hgeno]
  refine ⟨?_, ?_, ?_⟩ <;> simp [estimate, hrow, hdose]

/-- Witness for C6: day 7 versus day 3 on the worked scenario, with concrete
stand-ins for the external models. -/
theorem time_noninterference_witness :
    (estimate (fun _ => 5) (fun q => q + 1) exampleP).pred_cl
      = (estimate (fun _ => 5) (fun q => q + 1) examplePEarly).pred_cl ∧
    (estimate (fun _ => 5) (fun q => q + 1) exampleP).theory_conc
      = (estimate (fun _ => 5) (fun q => q + 1) examplePEarly).theory_conc ∧
    (estimate (fun _ => 5) (fun q => q + 1) exampleP).pred_conc
      = (estimate (fun _ => 5) (fun q => q + 1) examplePEarly).pred_conc :=
  time_noninterference (fun _ => 5) (fun q => q + 1) exampleP examplePEarly
    rfl rfl rfl rfl rfl rfl rfl rfl

/-- Claim C7: two runs agreeing on the seven clearance covariates but
differing in the daily dose feed the clearance model the same feature row and
obtain the same predicted clearance. -/
theorem dose_noninterference (model_cl : List (String × Option ℚ) → ℚ)
    (calibrator : ℚ → ℚ) (p₁ p₂ : PatientCovariates)
    (hage : p₁.age = p₂.age) (hw : p₁.weight = p₂.weight)
    (halb : p₁.alb = p₂.alb) (hcrp : p₁.crp = p₂.crp)
    (htbil : p₁.tbil = p₂.tbil) (hsex : p₁.sex_input = p₂.sex_input)
    (hgeno : p₁.geno_label = p₂.geno_label) :
    input_row p₁ = input_row p₂ ∧
    (estimate model_cl calibrator p₁).pred_cl
      = (estimate model_cl calibrator p₂).pred_cl := by
  have hrow : input_row p₁ = input_row p₂ := by
    unfold input_row assemble_row covariate_dict
    rw [hage, hw, halb, hcrp, htbil, hsex, hgeno]
  exact ⟨hrow, by simp [estimate, hrow]⟩

/-- Witness for C7: dose 400 versus dose 200 on the worked scenario. -/
theorem dose_noninterference_witness :
    input_row exampleP = input_row examplePHalfDose ∧
    (estimate (fun _ => 5) (fun q => q + 1) exampleP).pred_cl
      = (estimate (fun _ => 5) (fun q => q + 1) examplePHalfDose).pred_cl :=
  dose_noninterference (fun _ => 5) (fun q => q + 1) exampleP examplePHalfDose
    rfl rfl rfl rfl rfl rfl rfl

/-- Inverse of the sex encoding on its finite range. -/
def decode_sex (v : ℚ) : Option String :=
  if v = 1 then some "Male" else if v = 2 then some "Female" else none

/-- Inverse of the metabolizer encoding: reverse lookup in `geno_map`. -/
def decode_geno (v : ℚ) : Option String :=
  (geno_map.find? (fun kv => decide (kv.2 = v))).map Prod.fst

/-- Claim C8: the categorical encodings are lossless on their finite domains:
decoding the Sex and GenotypingValue entries of the assembled feature row
recovers exactly the original labels, for every input record. -/
theorem encoding_roundtrip (p : PatientCovariates) :
    ((input_row p).getD 4 ("", none)).2.bind decode_sex
      = some (sex_label p.sex_input) ∧
    ((input_row p).getD 2 ("", none)).2.bind decode_geno
      = some (geno_label_str p.geno_label) := by
  obtain ⟨d, t, a, w, al, c, tb, s, g⟩ := p
  exact ⟨by cases s <;> rfl, by cases g <;> rfl⟩

/-- Claim C9: an error raised by the clearance model or by the calibrator
aborts the whole estimation with that stage's error, and a successful result
is only produced when both model calls succeeded — it carries the clearance,
the theoretical concentration derived from it, and the floored calibrator
output together, so a clearance is never presented without a calibrated
concentration. -/
theorem pipeline_error_propagation
    (model_cl : List (String × Option ℚ) → Except String ℚ)
    (calibrator : ℚ → Except String ℚ) (p : PatientCovariates) :
    (∀ e, model_cl (input_row p) = Except.error e →
       estimateE model_cl calibrator p = Except.error e) ∧
    (∀ cl e, model_cl (input_row p) = Except.ok cl →
       calibrator (calculate_theoretical_conc cl p.daydose) = Except.error e →
       estimateE model_cl calibrator p = Except.error e) ∧
    (∀ r, estimateE model_cl calibrator p = Except.ok r →
       model_cl (input_row p) = Except.ok r.pred_cl ∧
       r.theory_conc = calculate_theoretical_conc r.pred_cl p.daydose ∧
       ∃ cc, calibrator r.theory_conc = Except.ok cc ∧ r.pred_conc = max cc 0.1) := by
  refine ⟨fun e he => ?_, fun cl e hcl he => ?_, fun r hr => ?_⟩
  · simp [estimateE, he, Except.bind]
  · simp [estimateE, hcl, he, Except.bind]
  · unfold estimateE at hr
    cases hm : model_cl (input_row p) with
    | error e => rw [hm] at hr; simp [Except.bind] at hr
    | ok cl =>
        rw [hm] at hr
        simp only [Except.bind] at hr
        cases hc : calibrator (calculate_theoretical_conc cl p.daydose) with
        | error e => rw [hc] at hr; simp [Except.bind] at hr
        | ok cc =>
            rw [hc] at hr
            simp only [Except.bind, Except.ok.injEq] at hr
            subst hr
            exact ⟨rfl, rfl, cc, hc, rfl⟩

/-- Witness for C9: a failing clearance model aborts the pipeline with its
error, and a fully successful run produces the complete triple. -/
theorem pipeline_error_propagation_witness :
    estimateE (fun _ => Except.error "model inference failed")
      (fun _ => Except.ok 1) exampleP
      = Except.error "model inference failed" ∧
    estimateE (fun _ => Except.ok 5) (fun q => Except.ok q) exampleP
      = Except.ok ⟨5, calculate_theoretical_conc 5 400,
          max (calculate_theoretical_conc 5 400) 0.1,
          SteadyStateAdvisory.NearSteadyState⟩ :=
  ⟨(pipeline_error_propagation (fun _ => Except.error "model inference failed")
      (fun _ => Except.ok 1) exampleP).1 "model inference failed" rfl,
   rfl⟩

end PPCsVcz
